import Mathlib

/-!
Shallow embedding of the SteamVR Tracker Jitter Analysis Tool's numeric core,
translated from the Python sources:

* `stats_calculator.py` — `StatsCalculator` (rolling window statistics and
  tracking-loss counters);
* `bs_plot_widget.py`   — `BaseStationPlotWidget` (drift / displacement
  monitor for base stations), keeping only its data state and transitions
  (the Qt plotting calls carry no data of their own);
* `tracker_monitor.py`  — the pose-decoding part of
  `TrackerMonitor.get_all_tracker_positions`;
* `csv_exporter.py`     — `CSVExporter.save`, modelled as the list of rows
  it writes;
* `main.py`             — the data-bearing core of `MainWindow._on_timer_tick`.

Python floats are modelled as real numbers (`ℝ`), except in the CSV exporter
where the decimal formatting needs computation and the field values are
modelled as rationals (`ℚ`, every IEEE double is a rational).  Python dicts
keyed by device serial are modelled as functions `String → Option _`
(`none` = key absent).  A `collections.deque(maxlen = n)` is modelled as a
`List` together with the bounded-append operation `dequeAppend`.
-/

/-- Append on a Python `collections.deque(maxlen := maxlen)`: appending to a
full deque silently evicts the leftmost (oldest) element.  For `maxlen = 0`
the deque always stays empty; otherwise, as long as the list is not longer
than `maxlen` (the reachable states), appending drops
`length + 1 - maxlen` elements from the front, i.e. none until the deque
is full and exactly one afterwards. -/
def dequeAppend {α : Type} (maxlen : ℕ) (h : List α) (x : α) : List α :=
  if maxlen = 0 then [] else (h ++ [x]).drop (h.length + 1 - maxlen)

/-- Euclidean distance between two 3-vectors, as computed by
`np.linalg.norm(a - b)` on shape-(3,) arrays. -/
noncomputable def dist3 (a b : ℝ × ℝ × ℝ) : ℝ :=
  Real.sqrt ((a.1 - b.1) ^ 2 + (a.2.1 - b.2.1) ^ 2 + (a.2.2 - b.2.2) ^ 2)

/-- Arithmetic mean of a list of reals (`np.mean`); `0` on the empty list
(division by zero in `ℝ` yields `0`, which no caller relies on). -/
noncomputable def listMean (l : List ℝ) : ℝ := l.sum / l.length

/-- Population standard deviation of a list of reals, exactly as `np.std`
computes it: the square root of the mean of the squared deviations from the
mean. -/
noncomputable def popStd (l : List ℝ) : ℝ :=
  Real.sqrt ((l.map (fun x => (x - listMean l) ^ 2)).sum / l.length)

/-- Alternative formula for the population standard deviation, following the
spec's phrase "population standard deviation": `√(E[X²] − (E[X])²)`.  Used
only to state refinement theorems against `popStd`. -/
noncomputable def specPopStd (l : List ℝ) : ℝ :=
  Real.sqrt (listMean (l.map (fun x => x ^ 2)) - listMean l ^ 2)

/-- State of `stats_calculator.StatsCalculator`.  The two Python dicts
`_total_frames` and `_lost_frames` are always created, updated and cleared
together with the same keys, so they are modelled as one map to a
`(total, lost)` pair. -/
structure StatsCalculator where
  window_size : ℕ
  history : String → Option (List (ℝ × ℝ × ℝ))
  frames : String → Option (ℕ × ℕ)

namespace StatsCalculator

/-- `StatsCalculator.__init__(window_size = 100)`: empty dicts.  `main.py`
constructs it with `window_size = 100`, the default. -/
def init (window_size : ℕ := 100) : StatsCalculator :=
  ⟨window_size, fun _ => none, fun _ => none⟩

/-- `StatsCalculator.add_sample`: create the deque for `serial` if absent
(`deque(maxlen = window_size)`), then append the position. -/
def add_sample (st : StatsCalculator) (serial : String) (position : ℝ × ℝ × ℝ) :
    StatsCalculator :=
  { st with
    history := fun s =>
      if s = serial then
        some (dequeAppend st.window_size ((st.history serial).getD []) position)
      else st.history s }

/-- `StatsCalculator.record_frame`: create both counters at `0` if absent,
then increment `total` always and `lost` iff the frame is not valid. -/
def record_frame (st : StatsCalculator) (serial : String) (is_valid : Bool) :
    StatsCalculator :=
  { st with
    frames := fun s =>
      if s = serial then
        some (((st.frames serial).getD (0, 0)).1 + 1,
              if is_valid then ((st.frames serial).getD (0, 0)).2
              else ((st.frames serial).getD (0, 0)).2 + 1)
      else st.frames s }

/-- `StatsCalculator.get_loss_rate`: `0.0` when the serial was never observed
or `total == 0`, else `lost / total` (Python float division, modelled
exactly in `ℚ`). -/
def get_loss_rate (st : StatsCalculator) (serial : String) : ℚ :=
  match st.frames serial with
  | none => 0
  | some (total, lost) => if total = 0 then 0 else (lost : ℚ) / (total : ℚ)

/-- `StatsCalculator.get_std_dev`: `(0, 0, 0)` when the serial is unknown or
fewer than 2 samples are stored, else `np.std(data, axis=0)` — the per-axis
population standard deviation of the windowed positions. -/
noncomputable def get_std_dev (st : StatsCalculator) (serial : String) :
    ℝ × ℝ × ℝ :=
  match st.history serial with
  | none => (0, 0, 0)
  | some h =>
    if h.length < 2 then (0, 0, 0)
    else (popStd (h.map (·.1)), popStd (h.map (·.2.1)), popStd (h.map (·.2.2)))

/-- `np.mean(data, axis=0)`: componentwise mean of the windowed positions. -/
noncomputable def meanPos (h : List (ℝ × ℝ × ℝ)) : ℝ × ℝ × ℝ :=
  (listMean (h.map (·.1)), listMean (h.map (·.2.1)), listMean (h.map (·.2.2)))

/-- `StatsCalculator.get_distance_std`: `0.0` when the serial is unknown or
fewer than 2 samples are stored, else the population standard deviation of
each windowed sample's Euclidean distance from the window's mean position. -/
noncomputable def get_distance_std (st : StatsCalculator) (serial : String) : ℝ :=
  match st.history serial with
  | none => 0
  | some h =>
    if h.length < 2 then 0
    else popStd (h.map (fun p => dist3 p (meanPos h)))

/-- `StatsCalculator.get_sample_count`: `0` for an unknown serial, else the
length of its window. -/
def get_sample_count (st : StatsCalculator) (serial : String) : ℕ :=
  match st.history serial with
  | none => 0
  | some h => h.length

/-- `StatsCalculator.clear(serial = None)`: Python's `if serial:` treats both
`None` and the empty string as falsy, so either of those clears every dict
wholesale; a non-empty serial empties that serial's deque in place (the key
stays present) and zeroes its counters if present. -/
def clear (st : StatsCalculator) (serial : Option String) : StatsCalculator :=
  match serial with
  | some s =>
    if s = "" then
      ⟨st.window_size, fun _ => none, fun _ => none⟩
    else
      ⟨st.window_size,
       fun a => if a = s then (st.history a).map (fun _ => []) else st.history a,
       fun a => if a = s then (st.frames a).map (fun _ => (0, 0)) else st.frames a⟩
  | none => ⟨st.window_size, fun _ => none, fun _ => none⟩

end StatsCalculator

/-- The three texts `bs_plot_widget.py` ever puts in `status_label`:
`"STATUS: CALIBRATING..."` (constructor and `clear_data`), `"STATUS: STABLE"`
(first sample) and the movement-detected warning (displacement above
threshold). -/
inductive BSStatus where
  | calibrating
  | stable
  | displaced
deriving DecidableEq

/-- Data state of `bs_plot_widget.BaseStationPlotWidget`: everything the
widget stores apart from the Qt/pyqtgraph objects.  `status` mirrors the
status label text. -/
structure BaseStationPlotWidget where
  serial : String
  window_size : ℕ
  max_samples : ℕ
  start_time : Option ℝ
  initial_position : Option (ℝ × ℝ × ℝ)
  drift_threshold : ℝ
  time_data : List ℝ
  drift_data : List ℝ
  status : BSStatus

namespace BaseStationPlotWidget

/-- `BaseStationPlotWidget.__init__`: `window_size = 30`, `max_samples = 3000`,
no start time or initial position, 5 mm (`0.005` m) drift threshold, empty
deques, status label "CALIBRATING". -/
noncomputable def init (serial : String) : BaseStationPlotWidget :=
  ⟨serial, 30, 3000, none, none, 5 / 1000, [], [], .calibrating⟩

/-- `BaseStationPlotWidget.add_sample(timestamp, position)`, in source order:
if `initial_position is None`, capture the position as baseline and set the
label to STABLE; if `start_time is None`, capture the timestamp; append
`timestamp - start_time` to `time_data` and the distance from the baseline
times 1000 (mm) to `drift_data`; finally set the label to the
movement-detected warning iff the distance exceeds the threshold — the
`else` branch of that test is `pass`, so the label is otherwise left as it
is (latching). -/
noncomputable def add_sample (w : BaseStationPlotWidget) (timestamp : ℝ)
    (position : ℝ × ℝ × ℝ) : BaseStationPlotWidget :=
  let initial_position := w.initial_position.getD position
  let status0 := if w.initial_position.isNone then BSStatus.stable else w.status
  let start_time := w.start_time.getD timestamp
  let relative_time := timestamp - start_time
  let distance := dist3 position initial_position
  let distance_mm := distance * 1000
  { w with
    initial_position := some initial_position
    start_time := some start_time
    time_data := dequeAppend w.max_samples w.time_data relative_time
    drift_data := dequeAppend w.max_samples w.drift_data distance_mm
    status := if w.drift_threshold < distance then BSStatus.displaced else status0 }

/-- `BaseStationPlotWidget.clear_data`: empty both deques, drop the start
time and the baseline, set the label back to "CALIBRATING". -/
def clear_data (w : BaseStationPlotWidget) : BaseStationPlotWidget :=
  { w with
    time_data := []
    drift_data := []
    start_time := none
    initial_position := none
    status := .calibrating }

end BaseStationPlotWidget

/-- The 3×4 device-to-world transform `pose.mDeviceToAbsoluteTracking`
(rotation 3×3 in the left block, translation in column 3). -/
structure Mat34 where
  m00 : ℝ
  m01 : ℝ
  m02 : ℝ
  m03 : ℝ
  m10 : ℝ
  m11 : ℝ
  m12 : ℝ
  m13 : ℝ
  m20 : ℝ
  m21 : ℝ
  m22 : ℝ
  m23 : ℝ

/-- `np.arctan2 y x`, by its standard piecewise definition in terms of
`arctan`. -/
noncomputable def atan2 (y x : ℝ) : ℝ :=
  if 0 < x then Real.arctan (y / x)
  else if x < 0 then
    (if 0 ≤ y then Real.arctan (y / x) + Real.pi else Real.arctan (y / x) - Real.pi)
  else
    (if 0 < y then Real.pi / 2 else if y < 0 then -(Real.pi / 2) else 0)

/-- `np.degrees`: radians to degrees. -/
noncomputable def degrees (r : ℝ) : ℝ := r * 180 / Real.pi

/-- Position and rotation decoded from one pose, plus the validity flag
(fields `position`, `rotation`, `is_valid` of `TrackerData` in
`tracker_monitor.py`). -/
structure PoseSample where
  position : ℝ × ℝ × ℝ
  rotation : ℝ × ℝ × ℝ
  is_valid : Bool

/-- The per-device body of `TrackerMonitor.get_all_tracker_positions`
(lines 113–158): a valid pose yields the translation column as position and
the Euler angles `pitch = atan2 r21 r22`, `yaw = asin (−r20)`,
`roll = atan2 r10 r00` converted to degrees; an invalid pose yields zero
position and rotation.  The validity flag is copied into the result either
way. -/
noncomputable def decode_pose (is_valid : Bool) (matrix : Mat34) : PoseSample :=
  if is_valid then
    { position := (matrix.m03, matrix.m13, matrix.m23)
      rotation := (degrees (atan2 matrix.m21 matrix.m22),
                   degrees (Real.arcsin (-matrix.m20)),
                   degrees (atan2 matrix.m10 matrix.m00))
      is_valid := is_valid }
  else
    { position := (0, 0, 0), rotation := (0, 0, 0), is_valid := is_valid }

/-- Decimal digits of a natural number, most significant first (the digits
`str(n)` would print). -/
def natDigits (n : ℕ) : List Char :=
  if _h : n < 10 then [Nat.digitChar n]
  else natDigits (n / 10) ++ [Nat.digitChar (n % 10)]
termination_by n
decreasing_by exact Nat.div_lt_self (by omega) (by omega)

/-- The 6 decimal digits of a fractional part `n < 10^6`, zero padded to
exactly 6 characters, most significant first. -/
def fracDigits6 (n : ℕ) : List Char :=
  [Nat.digitChar (n / 100000 % 10), Nat.digitChar (n / 10000 % 10),
   Nat.digitChar (n / 1000 % 10), Nat.digitChar (n / 100 % 10),
   Nat.digitChar (n / 10 % 10), Nat.digitChar (n % 10)]

/-- Python's fixed-point formatting `.6f`: round to 6 decimal places and
print with exactly 6 digits behind the decimal point.  The value to format
is an IEEE double, i.e. a dyadic rational; no dyadic rational is an exact
midpoint between two multiples of `10⁻⁶`, so every rounding convention
agrees with the one Python uses on all inputs that can actually occur, and
`round` (nearest integer) is used here. -/
def fmt6 (q : ℚ) : String :=
  let n : ℕ := (round (|q| * 1000000)).toNat
  String.mk ((if q < 0 then ['-'] else []) ++ natDigits (n / 1000000))
    ++ "." ++ String.mk (fracDigits6 (n % 1000000))

/-- `csv_exporter.TrackerSample`: one buffered row of tracker data.  The
numeric type is a parameter so the same record shape serves the acquisition
pipeline (over `ℝ`) and the CSV formatting contract (over `ℚ`). -/
structure TrackerSample (α : Type) where
  timestamp : α
  serial : String
  x : α
  y : α
  z : α
  rot_pitch : α
  rot_yaw : α
  rot_roll : α
  sigma_x : α
  sigma_y : α
  sigma_z : α

namespace CSVExporter

/-- The fixed header row `CSVExporter.save` writes first. -/
def headerRow : List String :=
  ["Timestamp", "Device Serial",
   "Pos X", "Pos Y", "Pos Z",
   "Rot Pitch", "Rot Yaw", "Rot Roll",
   "Sigma X", "Sigma Y", "Sigma Z"]

/-- The row `CSVExporter.save` writes for one buffered sample: every numeric
field formatted with `.6f`, the serial written as is, in source order. -/
def sampleRow (s : TrackerSample ℚ) : List String :=
  [fmt6 s.timestamp, s.serial,
   fmt6 s.x, fmt6 s.y, fmt6 s.z,
   fmt6 s.rot_pitch, fmt6 s.rot_yaw, fmt6 s.rot_roll,
   fmt6 s.sigma_x, fmt6 s.sigma_y, fmt6 s.sigma_z]

/-- `CSVExporter.save`, modelled as the list of rows handed to
`csv.writer.writerow`: the header row, then one row per buffered sample in
buffer order. -/
def save (samples : List (TrackerSample ℚ)) : List (List String) :=
  headerRow :: samples.map sampleRow

end CSVExporter

/-- `openvr.TrackedDeviceClass_TrackingReference` (base stations). -/
def TrackedDeviceClass_TrackingReference : ℕ := 4

/-- `openvr.TrackedDeviceClass_GenericTracker`. -/
def TrackedDeviceClass_GenericTracker : ℕ := 3

/-- `tracker_monitor.TrackerData`: what `get_all_tracker_positions` hands to
the tick handler for one device. -/
structure TrackerData where
  serial : String
  device_index : ℕ
  position : ℝ × ℝ × ℝ
  rotation : ℝ × ℝ × ℝ
  is_valid : Bool
  device_class : ℕ

/-- The state `MainWindow._on_timer_tick` mutates that carries data (plot
widgets for trackers and all label/plot refreshes are display only and keep
no data the claims mention). -/
structure MainWindowState where
  stats : StatsCalculator
  csv_samples : List (TrackerSample ℝ)
  bs_widgets : String → Option BaseStationPlotWidget

/-- `MainWindow.__init__`: `StatsCalculator(window_size=100)`, an empty CSV
buffer, and no base-station widgets yet. -/
def MainWindowState.init : MainWindowState :=
  ⟨StatsCalculator.init 100, [], fun _ => none⟩

/-- The data-bearing core of `MainWindow._on_timer_tick` (main.py lines
487–577), given the tick timestamp and the `TrackerData` list the monitor
returned.  In source order: devices with `is_valid = False` are skipped up
front (line 494) while the remaining ones are split into base stations and
trackable devices by device class; the base-station loop re-checks validity
(line 508, dead after the filter), feeds the stats window, and feeds the
widget's drift monitor when a widget exists; the trackable loop calls
`record_frame`, re-checks validity (line 541, dead after the filter), feeds
the stats window and appends a row to the CSV buffer.  Plot refreshes,
throttling counters and label updates are omitted as pure display. -/
noncomputable def on_timer_tick (st : MainWindowState) (current_time : ℝ)
    (tracker_data : List TrackerData) : MainWindowState :=
  let valid := tracker_data.filter (fun d => d.is_valid)
  let base_stations :=
    valid.filter (fun d => d.device_class == TrackedDeviceClass_TrackingReference)
  let trackable_devices :=
    valid.filter (fun d => d.device_class != TrackedDeviceClass_TrackingReference)
  let st1 := base_stations.foldl (fun acc d =>
    if !d.is_valid then acc
    else
      { acc with
        stats := acc.stats.add_sample d.serial d.position
        bs_widgets := fun s =>
          match acc.bs_widgets d.serial with
          | some w =>
            if s = d.serial then some (w.add_sample current_time d.position)
            else acc.bs_widgets s
          | none => acc.bs_widgets s }) st
  trackable_devices.foldl (fun acc d =>
    let stats := acc.stats.record_frame d.serial d.is_valid
    if !d.is_valid then { acc with stats := stats }
    else
      let stats := stats.add_sample d.serial d.position
      let std_dev := stats.get_std_dev d.serial
      { acc with
        stats := stats
        csv_samples := acc.csv_samples ++
          [⟨current_time, d.serial, d.position.1, d.position.2.1, d.position.2.2,
            d.rotation.1, d.rotation.2.1, d.rotation.2.2,
            std_dev.1, std_dev.2.1, std_dev.2.2⟩] }) st1

/-- Run `on_timer_tick` over a sequence of ticks, each a timestamp paired
with the frames the monitor returned on that tick. -/
noncomputable def run_ticks (st : MainWindowState)
    (ticks : List (ℝ × List TrackerData)) : MainWindowState :=
  ticks.foldl (fun acc t => on_timer_tick acc t.1 t.2) st

/-! ### Helper lemmas -/

theorem dequeAppend_length_le {α : Type} (m : ℕ) (h : List α) (x : α) :
    (dequeAppend m h x).length ≤ m := by
  unfold dequeAppend
  split
  · simp
  · simp; omega

theorem dequeAppend_getLast? {α : Type} (m : ℕ) (hm : m ≠ 0) (h : List α) (x : α) :
    (dequeAppend m h x).getLast? = some x := by
  unfold dequeAppend
  rw [if_neg hm, List.drop_append_of_le_length (by omega)]
  exact List.getLast?_concat _

theorem foldl_dequeAppend {α : Type} (m : ℕ) (hm : m ≠ 0) :
    ∀ (ps h : List α), h.length ≤ m →
      ps.foldl (dequeAppend m) h = (h ++ ps).drop (h.length + ps.length - m) := by
  intro ps
  induction ps with
  | nil =>
    intro h hh
    simp [Nat.sub_eq_zero_of_le hh]
  | cons p ps ih =>
    intro h hh
    have hlen : (dequeAppend m h p).length ≤ m := dequeAppend_length_le m h p
    have hda : dequeAppend m h p = (h ++ [p]).drop (h.length + 1 - m) := by
      unfold dequeAppend; rw [if_neg hm]
    calc (p :: ps).foldl (dequeAppend m) h
        = ps.foldl (dequeAppend m) (dequeAppend m h p) := rfl
      _ = ((dequeAppend m h p) ++ ps).drop ((dequeAppend m h p).length + ps.length - m) :=
          ih _ hlen
      _ = (h ++ p :: ps).drop (h.length + (ps.length + 1) - m) := by
          rw [hda, ← List.drop_append_of_le_length (by simp),
            List.drop_drop]
          rw [show (h ++ [p]) ++ ps = h ++ p :: ps by simp]
          congr 1
          simp
          omega

theorem record_frame_preserves_inv (st : StatsCalculator)
    (hinv : ∀ s total lost, st.frames s = some (total, lost) → lost ≤ total)
    (serial : String) (v : Bool) :
    ∀ s total lost, (st.record_frame serial v).frames s = some (total, lost) →
      lost ≤ total := by
  intro s total lost
  unfold StatsCalculator.record_frame
  dsimp only
  split
  · rcases hfr : st.frames serial with _ | ⟨t0, l0⟩
    · intro he
      simp [hfr] at he
      cases v <;> simp at he <;> omega
    · have h0 : l0 ≤ t0 := hinv serial t0 l0 hfr
      intro he
      simp [hfr] at he
      cases v <;> simp at he <;> omega
  · exact hinv s total lost

theorem fold_record_frame_inv (events : List (String × Bool)) :
    ∀ st : StatsCalculator,
      (∀ s total lost, st.frames s = some (total, lost) → lost ≤ total) →
      ∀ s total lost,
        (events.foldl (fun a e => a.record_frame e.1 e.2) st).frames s
            = some (total, lost) → lost ≤ total := by
  induction events with
  | nil => intro st hinv; exact hinv
  | cons e es ih =>
    intro st hinv
    exact ih _ (record_frame_preserves_inv st hinv e.1 e.2)

theorem add_sample_preserves_bound (st : StatsCalculator)
    (hinv : ∀ s h, st.history s = some h → h.length ≤ st.window_size)
    (serial : String) (p : ℝ × ℝ × ℝ) :
    ∀ s h, (st.add_sample serial p).history s = some h →
      h.length ≤ (st.add_sample serial p).window_size := by
  intro s h
  unfold StatsCalculator.add_sample
  dsimp only
  split
  · intro he
    cases he
    exact dequeAppend_length_le _ _ _
  · exact hinv s h

theorem fold_add_sample_bound (ops : List (String × (ℝ × ℝ × ℝ))) :
    ∀ st : StatsCalculator,
      (∀ s h, st.history s = some h → h.length ≤ st.window_size) →
      ∀ s h,
        (ops.foldl (fun a o => a.add_sample o.1 o.2) st).history s = some h →
          h.length ≤ (ops.foldl (fun a o => a.add_sample o.1 o.2) st).window_size := by
  induction ops with
  | nil => intro st hinv; exact hinv
  | cons o os ih =>
    intro st hinv
    exact ih _ (add_sample_preserves_bound st hinv o.1 o.2)

theorem fold_add_sample_window_size (ops : List (String × (ℝ × ℝ × ℝ)))
    (st : StatsCalculator) :
    (ops.foldl (fun a o => a.add_sample o.1 o.2) st).window_size
      = st.window_size := by
  induction ops generalizing st with
  | nil => rfl
  | cons o os ih => exact ih _

theorem fold_add_sample_single (serial : String) (ps : List (ℝ × ℝ × ℝ)) :
    ∀ (st : StatsCalculator) (l : List (ℝ × ℝ × ℝ)),
      st.history serial = some l →
      (ps.foldl (fun a p => a.add_sample serial p) st).history serial
        = some (ps.foldl (dequeAppend st.window_size) l) := by
  induction ps with
  | nil => intro st l hl; exact hl
  | cons p ps ih =>
    intro st l hl
    have h1 : (st.add_sample serial p).history serial
        = some (dequeAppend st.window_size l p) := by
      unfold StatsCalculator.add_sample
      simp [hl]
    have h2 : (st.add_sample serial p).window_size = st.window_size := rfl
    have := ih (st.add_sample serial p) (dequeAppend st.window_size l p) h1
    rw [h2] at this
    exact this

/-! ### Claim theorems -/

/-- Claim C3: starting from a fresh calculator, after any sequence of
`record_frame` calls the counters of every device satisfy `lost ≤ total`;
`get_loss_rate` returns `lost / total` whenever `total > 0` and exactly `0`
when the device was never observed or `total = 0`; hence the returned ratio
always lies in `[0, 1]`. -/
theorem c3_loss_counters (w : ℕ) (events : List (String × Bool)) (serial : String)
    (st : StatsCalculator)
    (hst : st = events.foldl (fun a e => a.record_frame e.1 e.2)
      (StatsCalculator.init w)) :
    (∀ total lost, st.frames serial = some (total, lost) → lost ≤ total) ∧
    0 ≤ st.get_loss_rate serial ∧ st.get_loss_rate serial ≤ 1 ∧
    (∀ total lost, st.frames serial = some (total, lost) → 0 < total →
      st.get_loss_rate serial = (lost : ℚ) / (total : ℚ)) ∧
    (st.frames serial = none → st.get_loss_rate serial = 0) ∧
    (∀ lost, st.frames serial = some (0, lost) → st.get_loss_rate serial = 0) := by
  have hinv : ∀ s total lost, st.frames s = some (total, lost) → lost ≤ total := by
    subst hst
    exact fold_record_frame_inv events (StatsCalculator.init w) (by intro s t l h; cases h)
  refine ⟨hinv serial, ?_, ?_, ?_, ?_, ?_⟩
  · unfold StatsCalculator.get_loss_rate
    rcases hfr : st.frames serial with _ | ⟨t0, l0⟩
    · simp
    · simp only
      split
      · exact le_refl 0
      · positivity
  · unfold StatsCalculator.get_loss_rate
    rcases hfr : st.frames serial with _ | ⟨t0, l0⟩
    · simp
    · have h0 : l0 ≤ t0 := hinv serial t0 l0 hfr
      simp only
      split
      · exact zero_le_one
      · rename_i ht
        rw [div_le_one (by positivity)]
        exact_mod_cast h0
  · intro total lost hfr ht
    unfold StatsCalculator.get_loss_rate
    rw [hfr]
    simp [Nat.pos_iff_ne_zero.mp ht]
  · intro hfr
    unfold StatsCalculator.get_loss_rate
    rw [hfr]
  · intro lost hfr
    unfold StatsCalculator.get_loss_rate
    rw [hfr]
    simp

/-- Witness for C3 at a concrete input: device `"A"` sees one valid and two
invalid frames, so its counters are `(3, 2)` and the loss rate is `2 / 3`. -/
theorem c3_loss_counters_witness :
    (([("A", true), ("A", false), ("A", false)].foldl
        (fun a e => a.record_frame e.1 e.2)
        (StatsCalculator.init 100)).get_loss_rate "A") = 2 / 3 := by
  have h := c3_loss_counters 100 [("A", true), ("A", false), ("A", false)] "A" _ rfl
  have h4 := h.2.2.2.1 3 2 (by decide) (by decide)
  rw [h4]
  norm_num

/-- Claim C5: starting from a fresh calculator of capacity `w`, after any
sequence of `add_sample` calls no device's window holds more than `w`
samples; and after `w + 1` samples for one device the window holds exactly
the last `w` of them in order — the oldest one has been evicted. -/
theorem c5_window_capacity_fifo :
    (∀ (w : ℕ) (ops : List (String × (ℝ × ℝ × ℝ))) (serial : String)
       (h : List (ℝ × ℝ × ℝ)),
       (ops.foldl (fun a o => a.add_sample o.1 o.2)
           (StatsCalculator.init w)).history serial = some h →
       h.length ≤ w) ∧
    (∀ (w : ℕ) (serial : String) (ps : List (ℝ × ℝ × ℝ)), 0 < w →
       ps.length = w + 1 →
       (ps.foldl (fun a p => a.add_sample serial p)
           (StatsCalculator.init w)).history serial = some (ps.drop 1)) := by
  constructor
  · intro w ops serial h hh
    have hb := fold_add_sample_bound ops (StatsCalculator.init w)
      (by intro s l hl; cases hl) serial h hh
    rwa [fold_add_sample_window_size] at hb
  · intro w serial ps hw hlen
    have hm : w ≠ 0 := Nat.pos_iff_ne_zero.mp hw
    rcases ps with _ | ⟨p, ps'⟩
    · simp at hlen
    · have h1 : ((StatsCalculator.init w).add_sample serial p).history serial
          = some (dequeAppend w [] p) := by
        unfold StatsCalculator.add_sample StatsCalculator.init
        simp
      have h2 := fold_add_sample_single serial ps'
        ((StatsCalculator.init w).add_sample serial p) (dequeAppend w [] p) h1
      have hws : ((StatsCalculator.init w).add_sample serial p).window_size = w := rfl
      rw [hws] at h2
      have hde : dequeAppend w ([] : List (ℝ × ℝ × ℝ)) p = [p] := by
        unfold dequeAppend
        rw [if_neg hm]
        simp [Nat.sub_eq_zero_of_le hw]
      rw [hde] at h2
      have h3 : List.foldl (dequeAppend w) [p] ps'
          = ([p] ++ ps').drop (1 + ps'.length - w) := by
        have := foldl_dequeAppend w hm ps' [p] (by simpa using hw)
        simpa using this
      have hlen' : ps'.length = w := by simpa using hlen
      calc ((p :: ps').foldl (fun a p => a.add_sample serial p)
              (StatsCalculator.init w)).history serial
          = (ps'.foldl (fun a p => a.add_sample serial p)
              ((StatsCalculator.init w).add_sample serial p)).history serial := rfl
        _ = some (List.foldl (dequeAppend w) [p] ps') := h2
        _ = some ((p :: ps').drop 1) := by
            rw [h3]
            congr 1
            simp [hlen']

/-- Witness for C5 at a concrete input: capacity 2, three samples; the
window ends up holding the last two samples in order. -/
theorem c5_window_capacity_fifo_witness :
    ([((1 : ℝ), 0, 0), ((2 : ℝ), 0, 0), ((3 : ℝ), 0, 0)].foldl
        (fun a p => a.add_sample "A" p)
        (StatsCalculator.init 2)).history "A"
      = some [((2 : ℝ), 0, 0), ((3 : ℝ), 0, 0)] := by
  have h := c5_window_capacity_fifo.2 2 "A"
    [((1 : ℝ), 0, 0), ((2 : ℝ), 0, 0), ((3 : ℝ), 0, 0)] (by norm_num) (by norm_num)
  simpa using h

/-- Claim C10: `clear` with a non-empty serial empties only that serial's
window and zeroes only its loss counters, leaving every other device's
window, sample count, counters and loss rate untouched; `clear` with a falsy
serial — `None` or the empty string — drops the state of all devices, so an
empty-string serial cannot be cleared individually. -/
theorem c10_clear_isolation :
    (∀ (st : StatsCalculator) (a b : String), a ≠ "" → b ≠ a →
      (st.clear (some a)).history a = (st.history a).map (fun _ => []) ∧
      (st.clear (some a)).frames a = (st.frames a).map (fun _ => (0, 0)) ∧
      (st.clear (some a)).get_sample_count a = 0 ∧
      (st.clear (some a)).get_loss_rate a = 0 ∧
      (st.clear (some a)).history b = st.history b ∧
      (st.clear (some a)).frames b = st.frames b ∧
      (st.clear (some a)).get_sample_count b = st.get_sample_count b ∧
      (st.clear (some a)).get_loss_rate b = st.get_loss_rate b) ∧
    (∀ (st : StatsCalculator) (s : String),
      (st.clear none).history s = none ∧ (st.clear none).frames s = none ∧
      (st.clear (some "")).history s = none ∧ (st.clear (some "")).frames s = none) := by
  constructor
  · intro st a b ha hb
    have hha : (st.clear (some a)).history a = (st.history a).map (fun _ => []) := by
      unfold StatsCalculator.clear
      simp [ha]
    have hfa : (st.clear (some a)).frames a = (st.frames a).map (fun _ => (0, 0)) := by
      unfold StatsCalculator.clear
      simp [ha]
    have hhb : (st.clear (some a)).history b = st.history b := by
      unfold StatsCalculator.clear
      simp [ha, hb]
    have hfb : (st.clear (some a)).frames b = st.frames b := by
      unfold StatsCalculator.clear
      simp [ha, hb]
    refine ⟨hha, hfa, ?_, ?_, hhb, hfb, ?_, ?_⟩
    · unfold StatsCalculator.get_sample_count
      rw [hha]
      rcases st.history a with _ | h <;> simp
    · unfold StatsCalculator.get_loss_rate
      rw [hfa]
      rcases st.frames a with _ | ⟨t, l⟩ <;> simp
    · unfold StatsCalculator.get_sample_count
      rw [hhb]
    · unfold StatsCalculator.get_loss_rate
      rw [hfb]
  · intro st s
    exact ⟨rfl, rfl, rfl, rfl⟩

/-- Witness for C10 at a concrete input: a calculator that holds a window
for `"A"` and loss counters for `"B"`; clearing `"A"` zeroes `"A"` and
leaves `"B"` untouched, and clearing with `None` drops everything. -/
theorem c10_clear_isolation_witness :
    ((((StatsCalculator.init 100).add_sample "A" (1, 0, 0)).record_frame "B"
        false).clear (some "A")).get_sample_count "A" = 0 ∧
    ((((StatsCalculator.init 100).add_sample "A" (1, 0, 0)).record_frame "B"
        false).clear (some "A")).frames "B"
      = (((StatsCalculator.init 100).add_sample "A" (1, 0, 0)).record_frame "B"
        false).frames "B" ∧
    (((StatsCalculator.init 100).add_sample "A" (1, 0, 0)).record_frame "B"
        false).frames "B" = some (1, 1) ∧
    ((((StatsCalculator.init 100).add_sample "A" (1, 0, 0)).record_frame "B"
        false).clear none).frames "B" = none := by
  have h := c10_clear_isolation.1
    (((StatsCalculator.init 100).add_sample "A" (1, 0, 0)).record_frame "B" false)
    "A" "B" (by decide) (by decide)
  have h2 := c10_clear_isolation.2
    (((StatsCalculator.init 100).add_sample "A" (1, 0, 0)).record_frame "B" false) "B"
  exact ⟨h.2.2.1, h.2.2.2.2.2.1, by decide, h2.2.1⟩

theorem sum_sq_expand (c : ℝ) (l : List ℝ) :
    (l.map (fun x => (x - c) ^ 2)).sum
      = (l.map (fun x => x ^ 2)).sum - 2 * c * l.sum + l.length * c ^ 2 := by
  induction l with
  | nil => simp
  | cons a t ih =>
    simp only [List.map_cons, List.sum_cons, ih, List.length_cons]
    push_cast
    ring

theorem popStd_eq_specPopStd (l : List ℝ) (hl : l ≠ []) : popStd l = specPopStd l := by
  have hn : (l.length : ℝ) ≠ 0 := by
    have := List.length_pos.mpr hl
    exact_mod_cast Nat.pos_iff_ne_zero.mp this
  unfold popStd specPopStd listMean
  rw [sum_sq_expand]
  simp only [List.length_map]
  congr 1
  field_simp
  ring

/-- Claim C4: `get_std_dev` returns exactly `(0, 0, 0)` and
`get_distance_std` exactly `0` whenever the device is unknown or its window
holds fewer than 2 samples; with at least 2 samples, `get_std_dev` is the
per-axis population standard deviation of the windowed positions and
`get_distance_std` the population standard deviation of each windowed
sample's Euclidean distance from the window's mean position (both stated
through the `√(E[X²] − E[X]²)` form `specPopStd`). -/
theorem c4_std_dev_contract (st : StatsCalculator) (serial : String) :
    (st.history serial = none →
       st.get_std_dev serial = (0, 0, 0) ∧ st.get_distance_std serial = 0) ∧
    (∀ h, st.history serial = some h → h.length < 2 →
       st.get_std_dev serial = (0, 0, 0) ∧ st.get_distance_std serial = 0) ∧
    (∀ h, st.history serial = some h → 2 ≤ h.length →
       st.get_std_dev serial
         = (specPopStd (h.map (·.1)), specPopStd (h.map (·.2.1)),
            specPopStd (h.map (·.2.2))) ∧
       st.get_distance_std serial
         = specPopStd (h.map (fun p => dist3 p (StatsCalculator.meanPos h)))) := by
  refine ⟨?_, ?_, ?_⟩
  · intro h0
    constructor <;>
      simp [StatsCalculator.get_std_dev, StatsCalculator.get_distance_std, h0]
  · intro h hh hlen
    constructor <;>
      simp [StatsCalculator.get_std_dev, StatsCalculator.get_distance_std, hh, hlen]
  · intro h hh hlen
    have hne : h ≠ [] := by
      intro he
      subst he
      simp at hlen
    have hmapne : ∀ f : (ℝ × ℝ × ℝ) → ℝ, h.map f ≠ [] := by
      intro f
      simpa [List.map_eq_nil_iff] using hne
    constructor
    · simp only [StatsCalculator.get_std_dev, hh, Nat.not_lt.mpr hlen, if_false]
      exact Prod.ext (popStd_eq_specPopStd _ (hmapne _))
        (Prod.ext (popStd_eq_specPopStd _ (hmapne _))
          (popStd_eq_specPopStd _ (hmapne _)))
    · simp only [StatsCalculator.get_distance_std, hh, Nat.not_lt.mpr hlen, if_false]
      exact popStd_eq_specPopStd _ (hmapne _)

/-- Witness for C4 at a concrete input: two samples `(0,0,0)` and `(2,0,0)`
give per-axis standard deviation `(1, 0, 0)`, and both samples lie at
distance 1 from the mean `(1,0,0)`, so the distance standard deviation is
`0`. -/
theorem c4_std_dev_contract_witness :
    (((StatsCalculator.init 100).add_sample "A" (0, 0, 0)).add_sample "A"
        (2, 0, 0)).get_std_dev "A" = (1, 0, 0) ∧
    (((StatsCalculator.init 100).add_sample "A" (0, 0, 0)).add_sample "A"
        (2, 0, 0)).get_distance_std "A" = 0 := by
  have hh : (((StatsCalculator.init 100).add_sample "A" (0, 0, 0)).add_sample "A"
      (2, 0, 0)).history "A" = some [((0 : ℝ), 0, 0), ((2 : ℝ), 0, 0)] := by
    norm_num [StatsCalculator.add_sample, StatsCalculator.init, dequeAppend]
  have h3 := (c4_std_dev_contract _ "A").2.2 [((0 : ℝ), 0, 0), ((2 : ℝ), 0, 0)]
    hh (by norm_num)
  have s1 : specPopStd [(0 : ℝ), 2] = 1 := by
    unfold specPopStd listMean
    norm_num
  have s0 : specPopStd [(0 : ℝ), 0] = 0 := by
    unfold specPopStd listMean
    norm_num
  have s11 : specPopStd [(1 : ℝ), 1] = 0 := by
    unfold specPopStd listMean
    norm_num
  have hmp : StatsCalculator.meanPos [((0 : ℝ), 0, 0), ((2 : ℝ), 0, 0)]
      = (1, 0, 0) := by
    norm_num [StatsCalculator.meanPos, listMean]
  have hd1 : dist3 ((0 : ℝ), 0, 0) ((1 : ℝ), 0, 0) = 1 := by
    unfold dist3
    rw [show ((0 : ℝ) - 1) ^ 2 + ((0 : ℝ) - 0) ^ 2 + ((0 : ℝ) - 0) ^ 2 = 1 by norm_num,
      Real.sqrt_one]
  have hd2 : dist3 ((2 : ℝ), 0, 0) ((1 : ℝ), 0, 0) = 1 := by
    unfold dist3
    rw [show ((2 : ℝ) - 1) ^ 2 + ((0 : ℝ) - 0) ^ 2 + ((0 : ℝ) - 0) ^ 2 = 1 by norm_num,
      Real.sqrt_one]
  constructor
  · rw [h3.1]
    norm_num [s1, s0]
  · rw [h3.2, hmp]
    simp only [List.map_cons, List.map_nil, hd1, hd2]
    exact s11

theorem bs_add_sample_threshold (w : BaseStationPlotWidget) (t : ℝ)
    (p : ℝ × ℝ × ℝ) : (w.add_sample t p).drift_threshold = w.drift_threshold := rfl

theorem bs_add_sample_max_samples (w : BaseStationPlotWidget) (t : ℝ)
    (p : ℝ × ℝ × ℝ) : (w.add_sample t p).max_samples = w.max_samples := rfl

theorem bs_add_sample_status (w : BaseStationPlotWidget) (t : ℝ)
    (p : ℝ × ℝ × ℝ) :
    (w.add_sample t p).status =
      if w.drift_threshold < dist3 p (w.initial_position.getD p) then
        BSStatus.displaced
      else if w.initial_position.isNone then BSStatus.stable else w.status := rfl

theorem bs_add_sample_initial (w : BaseStationPlotWidget) (t : ℝ)
    (p : ℝ × ℝ × ℝ) :
    (w.add_sample t p).initial_position = some (w.initial_position.getD p) := rfl

theorem bs_add_sample_initial_of_some (w : BaseStationPlotWidget)
    (b : ℝ × ℝ × ℝ) (t : ℝ) (p : ℝ × ℝ × ℝ) (h : w.initial_position = some b) :
    (w.add_sample t p).initial_position = some b := by
  rw [bs_add_sample_initial, h]
  rfl

theorem bs_add_sample_initial_isSome (w : BaseStationPlotWidget) (t : ℝ)
    (p : ℝ × ℝ × ℝ) : (w.add_sample t p).initial_position.isSome := by
  rw [bs_add_sample_initial]
  rfl

theorem bs_add_sample_drift_data (w : BaseStationPlotWidget) (t : ℝ)
    (p : ℝ × ℝ × ℝ) :
    (w.add_sample t p).drift_data =
      dequeAppend w.max_samples w.drift_data
        (dist3 p (w.initial_position.getD p) * 1000) := rfl

/-- Claim C2: once a sample's displacement from the baseline exceeds the
threshold the status becomes DISPLACED, and a widget whose status is
DISPLACED (and whose baseline is set) stays DISPLACED on every further
sample, whatever its displacement — the `else` branch of the threshold test
is a no-op, so the status only ever changes away from DISPLACED through an
explicit reset. -/
theorem c2_drift_latching :
    (∀ (w : BaseStationPlotWidget) (t : ℝ) (p b : ℝ × ℝ × ℝ),
        w.initial_position = some b → w.drift_threshold < dist3 p b →
        (w.add_sample t p).status = BSStatus.displaced) ∧
    (∀ (w : BaseStationPlotWidget) (t : ℝ) (p : ℝ × ℝ × ℝ),
        w.initial_position.isSome → w.status = BSStatus.displaced →
        (w.add_sample t p).status = BSStatus.displaced) := by
  constructor
  · intro w t p b hb hlt
    rw [bs_add_sample_status, hb]
    simp only [Option.getD_some]
    rw [if_pos hlt]
  · intro w t p hs hst
    obtain ⟨b, hb⟩ := Option.isSome_iff_exists.mp hs
    rw [bs_add_sample_status, hb]
    split
    · rfl
    · simpa using hst

/-- Witness for C2, scenario B: baseline `(0,0,0)` with the default 5 mm
threshold; a 3 mm sample leaves the status STABLE, an 8 mm sample makes it
DISPLACED, and a following 1 mm sample leaves it DISPLACED (latched). -/
theorem c2_drift_latching_witness :
    (((BaseStationPlotWidget.init "BS").add_sample 0 ((0 : ℝ), 0, 0)).add_sample 1
        ((3 / 1000 : ℝ), 0, 0)).status = BSStatus.stable ∧
    ((((BaseStationPlotWidget.init "BS").add_sample 0 ((0 : ℝ), 0, 0)).add_sample 1
        ((3 / 1000 : ℝ), 0, 0)).add_sample 2 ((8 / 1000 : ℝ), 0, 0)).status
      = BSStatus.displaced ∧
    (((((BaseStationPlotWidget.init "BS").add_sample 0 ((0 : ℝ), 0, 0)).add_sample 1
        ((3 / 1000 : ℝ), 0, 0)).add_sample 2 ((8 / 1000 : ℝ), 0, 0)).add_sample 3
        ((1 / 1000 : ℝ), 0, 0)).status = BSStatus.displaced := by
  have h0i : (BaseStationPlotWidget.init "BS").initial_position = none := rfl
  have h1i : ((BaseStationPlotWidget.init "BS").add_sample 0
      ((0 : ℝ), 0, 0)).initial_position = some ((0 : ℝ), 0, 0) := by
    rw [bs_add_sample_initial, h0i]
    rfl
  have h1status : ((BaseStationPlotWidget.init "BS").add_sample 0
      ((0 : ℝ), 0, 0)).status = BSStatus.stable := by
    have hd : dist3 ((0 : ℝ), 0, 0) ((0 : ℝ), 0, 0) = 0 := by
      unfold dist3
      norm_num
    rw [bs_add_sample_status, h0i]
    simp only [Option.getD_none]
    rw [if_neg (show ¬((BaseStationPlotWidget.init "BS").drift_threshold
        < dist3 ((0 : ℝ), 0, 0) ((0 : ℝ), 0, 0)) by
      rw [hd]
      norm_num [BaseStationPlotWidget.init])]
    rfl
  have hd3 : dist3 ((3 / 1000 : ℝ), 0, 0) ((0 : ℝ), 0, 0) = 3 / 1000 := by
    unfold dist3
    rw [show ((3 / 1000 : ℝ) - 0) ^ 2 + ((0 : ℝ) - 0) ^ 2 + ((0 : ℝ) - 0) ^ 2
        = (3 / 1000 : ℝ) ^ 2 by norm_num]
    exact Real.sqrt_sq (by norm_num)
  have h1thr : ((BaseStationPlotWidget.init "BS").add_sample 0
      ((0 : ℝ), 0, 0)).drift_threshold = 5 / 1000 := rfl
  have h2status : (((BaseStationPlotWidget.init "BS").add_sample 0
      ((0 : ℝ), 0, 0)).add_sample 1 ((3 / 1000 : ℝ), 0, 0)).status
      = BSStatus.stable := by
    rw [bs_add_sample_status, h1i]
    simp only [Option.getD_some]
    rw [if_neg (show ¬(((BaseStationPlotWidget.init "BS").add_sample 0
        ((0 : ℝ), 0, 0)).drift_threshold
          < dist3 ((3 / 1000 : ℝ), 0, 0) ((0 : ℝ), 0, 0)) by
      rw [h1thr, hd3]
      norm_num)]
    simpa using h1status
  have h2i : (((BaseStationPlotWidget.init "BS").add_sample 0
      ((0 : ℝ), 0, 0)).add_sample 1 ((3 / 1000 : ℝ), 0, 0)).initial_position
      = some ((0 : ℝ), 0, 0) :=
    bs_add_sample_initial_of_some _ _ _ _ h1i
  have h2thr : (((BaseStationPlotWidget.init "BS").add_sample 0
      ((0 : ℝ), 0, 0)).add_sample 1 ((3 / 1000 : ℝ), 0, 0)).drift_threshold
      = 5 / 1000 := rfl
  have hd8 : dist3 ((8 / 1000 : ℝ), 0, 0) ((0 : ℝ), 0, 0) = 8 / 1000 := by
    unfold dist3
    rw [show ((8 / 1000 : ℝ) - 0) ^ 2 + ((0 : ℝ) - 0) ^ 2 + ((0 : ℝ) - 0) ^ 2
        = (8 / 1000 : ℝ) ^ 2 by norm_num]
    exact Real.sqrt_sq (by norm_num)
  have h3status := c2_drift_latching.1
    (((BaseStationPlotWidget.init "BS").add_sample 0 ((0 : ℝ), 0, 0)).add_sample 1
      ((3 / 1000 : ℝ), 0, 0)) 2 ((8 / 1000 : ℝ), 0, 0) ((0 : ℝ), 0, 0) h2i
    (by rw [h2thr, hd8]; norm_num)
  have h3some := bs_add_sample_initial_isSome
    (((BaseStationPlotWidget.init "BS").add_sample 0 ((0 : ℝ), 0, 0)).add_sample 1
      ((3 / 1000 : ℝ), 0, 0)) 2 ((8 / 1000 : ℝ), 0, 0)
  have h4status := c2_drift_latching.2
    ((((BaseStationPlotWidget.init "BS").add_sample 0 ((0 : ℝ), 0, 0)).add_sample 1
      ((3 / 1000 : ℝ), 0, 0)).add_sample 2 ((8 / 1000 : ℝ), 0, 0)) 3
    ((1 / 1000 : ℝ), 0, 0) h3some h3status
  exact ⟨h2status, h3status, h4status⟩

theorem bs_add_sample_start (w : BaseStationPlotWidget) (t : ℝ)
    (p : ℝ × ℝ × ℝ) :
    (w.add_sample t p).start_time = some (w.start_time.getD t) := rfl

/-- Claim C6: on a freshly created or reset widget the first sample's
position becomes the baseline and its timestamp the time origin, the status
becomes STABLE and the recorded displacement is 0; afterwards `add_sample`
never changes the baseline, and only `clear_data` discards it, returning the
widget to CALIBRATING with empty history. -/
theorem c6_baseline_capture_and_reset :
    (∀ (w : BaseStationPlotWidget) (t : ℝ) (p : ℝ × ℝ × ℝ),
        w.initial_position = none → w.start_time = none →
        0 ≤ w.drift_threshold →
        (w.add_sample t p).initial_position = some p ∧
        (w.add_sample t p).start_time = some t ∧
        (w.add_sample t p).status = BSStatus.stable ∧
        (w.add_sample t p).drift_data
          = dequeAppend w.max_samples w.drift_data 0) ∧
    (∀ (w : BaseStationPlotWidget) (b : ℝ × ℝ × ℝ) (t : ℝ) (p : ℝ × ℝ × ℝ),
        w.initial_position = some b →
        (w.add_sample t p).initial_position = some b) ∧
    (∀ w : BaseStationPlotWidget,
        w.clear_data.initial_position = none ∧ w.clear_data.start_time = none ∧
        w.clear_data.status = BSStatus.calibrating ∧
        w.clear_data.time_data = [] ∧ w.clear_data.drift_data = []) ∧
    (∀ s : String,
        (BaseStationPlotWidget.init s).initial_position = none ∧
        (BaseStationPlotWidget.init s).start_time = none ∧
        (BaseStationPlotWidget.init s).status = BSStatus.calibrating ∧
        (BaseStationPlotWidget.init s).time_data = [] ∧
        (BaseStationPlotWidget.init s).drift_data = []) := by
  refine ⟨?_, ?_, ?_, ?_⟩
  · intro w t p h0 hstart hthr
    have hd : dist3 p p = 0 := by
      unfold dist3
      simp
    refine ⟨?_, ?_, ?_, ?_⟩
    · rw [bs_add_sample_initial, h0]
      rfl
    · rw [bs_add_sample_start, hstart]
      rfl
    · rw [bs_add_sample_status, h0]
      simp only [Option.getD_none]
      rw [if_neg (show ¬(w.drift_threshold < dist3 p p) by
        rw [hd]
        exact not_lt.mpr hthr)]
      rfl
    · rw [bs_add_sample_drift_data, h0]
      simp only [Option.getD_none]
      rw [hd, zero_mul]
  · intro w b t p hb
    exact bs_add_sample_initial_of_some w b t p hb
  · intro w
    exact ⟨rfl, rfl, rfl, rfl, rfl⟩
  · intro s
    exact ⟨rfl, rfl, rfl, rfl, rfl⟩

/-- Witness for C6 at a concrete input: the first sample `(1,2,3)` at time 1
on a fresh widget becomes the baseline with time origin 1, status STABLE and
recorded displacement 0. -/
theorem c6_baseline_capture_and_reset_witness :
    ((BaseStationPlotWidget.init "BS").add_sample 1 ((1 : ℝ), 2, 3)).initial_position
      = some ((1 : ℝ), 2, 3) ∧
    ((BaseStationPlotWidget.init "BS").add_sample 1 ((1 : ℝ), 2, 3)).start_time
      = some 1 ∧
    ((BaseStationPlotWidget.init "BS").add_sample 1 ((1 : ℝ), 2, 3)).status
      = BSStatus.stable ∧
    ((BaseStationPlotWidget.init "BS").add_sample 1 ((1 : ℝ), 2, 3)).drift_data
      = [(0 : ℝ)] := by
  have h := c6_baseline_capture_and_reset.1 (BaseStationPlotWidget.init "BS") 1
    ((1 : ℝ), 2, 3) rfl rfl (by norm_num [BaseStationPlotWidget.init])
  refine ⟨h.1, h.2.1, h.2.2.1, h.2.2.2.trans ?_⟩
  norm_num [dequeAppend, BaseStationPlotWidget.init]

/-- Claim C7: on a widget whose baseline is set, `add_sample` records as the
current displacement exactly the Euclidean distance (in meters) between the
sample position and the baseline multiplied by 1000, i.e. millimeters; it is
appended to the drift history and is its most recent entry. -/
theorem c7_displacement_mm (w : BaseStationPlotWidget) (b : ℝ × ℝ × ℝ) (t : ℝ)
    (p : ℝ × ℝ × ℝ) (hb : w.initial_position = some b) :
    (w.add_sample t p).drift_data
      = dequeAppend w.max_samples w.drift_data (dist3 p b * 1000) ∧
    (0 < w.max_samples →
      (w.add_sample t p).drift_data.getLast? = some (dist3 p b * 1000)) := by
  have h1 : (w.add_sample t p).drift_data
      = dequeAppend w.max_samples w.drift_data (dist3 p b * 1000) := by
    rw [bs_add_sample_drift_data, hb]
    rfl
  refine ⟨h1, ?_⟩
  intro hm
  rw [h1]
  exact dequeAppend_getLast? _ (Nat.pos_iff_ne_zero.mp hm) _ _

/-- Witness for C7 at a concrete input: with baseline `(0,0,0)`, a sample at
`(0.003, 0, 0)` records a displacement of exactly 3 mm. -/
theorem c7_displacement_mm_witness :
    (((BaseStationPlotWidget.init "BS").add_sample 0 ((0 : ℝ), 0, 0)).add_sample 1
        ((3 / 1000 : ℝ), 0, 0)).drift_data.getLast? = some 3 := by
  have h1i : ((BaseStationPlotWidget.init "BS").add_sample 0
      ((0 : ℝ), 0, 0)).initial_position = some ((0 : ℝ), 0, 0) := by
    rw [bs_add_sample_initial]
    rfl
  have h := c7_displacement_mm
    ((BaseStationPlotWidget.init "BS").add_sample 0 ((0 : ℝ), 0, 0))
    ((0 : ℝ), 0, 0) 1 ((3 / 1000 : ℝ), 0, 0) h1i
  have h2 := h.2 (by norm_num [bs_add_sample_max_samples, BaseStationPlotWidget.init])
  rw [h2]
  have hd3 : dist3 ((3 / 1000 : ℝ), 0, 0) ((0 : ℝ), 0, 0) = 3 / 1000 := by
    unfold dist3
    rw [show ((3 / 1000 : ℝ) - 0) ^ 2 + ((0 : ℝ) - 0) ^ 2 + ((0 : ℝ) - 0) ^ 2
        = (3 / 1000 : ℝ) ^ 2 by norm_num]
    exact Real.sqrt_sq (by norm_num)
  rw [hd3]
  norm_num

/-- Claim C8: for a valid frame the decoder returns the translation column
`(m03, m13, m23)` as position and the Euler angles
`(atan2 r21 r22, asin (−r20), atan2 r10 r00)` converted to degrees as
rotation; for an invalid frame it returns zero position and rotation; the
validity flag is carried through unchanged in both cases. -/
theorem c8_decode_pose (m : Mat34) :
    decode_pose true m =
      { position := (m.m03, m.m13, m.m23)
        rotation := (degrees (atan2 m.m21 m.m22), degrees (Real.arcsin (-m.m20)),
                     degrees (atan2 m.m10 m.m00))
        is_valid := true } ∧
    decode_pose false m =
      { position := (0, 0, 0), rotation := (0, 0, 0), is_valid := false } ∧
    (∀ v : Bool, (decode_pose v m).is_valid = v) := by
  refine ⟨rfl, rfl, ?_⟩
  intro v
  cases v <;> rfl

theorem digitChar_isDigit (k : ℕ) (hk : k < 10) : (Nat.digitChar k).isDigit := by
  interval_cases k <;> decide

theorem natDigits_isDigit (n : ℕ) : ∀ c ∈ natDigits n, c.isDigit := by
  induction n using Nat.strong_induction_on with
  | _ n ih =>
    unfold natDigits
    split
    · rename_i h
      intro c hc
      simp at hc
      subst hc
      exact digitChar_isDigit n h
    · rename_i h
      intro c hc
      rw [List.mem_append] at hc
      rcases hc with hc | hc
      · exact ih (n / 10) (Nat.div_lt_self (by omega) (by omega)) c hc
      · simp at hc
        subst hc
        exact digitChar_isDigit _ (Nat.mod_lt n (by omega))

theorem fracDigits6_length (n : ℕ) : (fracDigits6 n).length = 6 := rfl

theorem fracDigits6_isDigit (n : ℕ) : ∀ c ∈ fracDigits6 n, c.isDigit := by
  intro c hc
  simp [fracDigits6] at hc
  rcases hc with h | h | h | h | h | h <;> subst h <;>
    exact digitChar_isDigit _ (Nat.mod_lt _ (by omega))

/-- Claim C9: `save` writes the fixed header row and then exactly one row
per buffered sample, whose fields appear in the order timestamp, serial,
position x/y/z, rotation pitch/yaw/roll, sigma x/y/z; every numeric field is
formatted with exactly 6 digits behind the decimal point (and none of the
characters before the decimal point is a point). -/
theorem c9_csv_row_shape (samples : List (TrackerSample ℚ)) :
    CSVExporter.save samples
      = CSVExporter.headerRow :: samples.map CSVExporter.sampleRow ∧
    (∀ s : TrackerSample ℚ, CSVExporter.sampleRow s =
      [fmt6 s.timestamp, s.serial, fmt6 s.x, fmt6 s.y, fmt6 s.z,
       fmt6 s.rot_pitch, fmt6 s.rot_yaw, fmt6 s.rot_roll,
       fmt6 s.sigma_x, fmt6 s.sigma_y, fmt6 s.sigma_z]) ∧
    (∀ q : ℚ, ∃ pre ds : List Char,
      fmt6 q = String.mk pre ++ "." ++ String.mk ds ∧
      ds.length = 6 ∧ (∀ c ∈ ds, c.isDigit) ∧ (∀ c ∈ pre, c ≠ '.')) := by
  refine ⟨rfl, fun s => rfl, ?_⟩
  intro q
  refine ⟨(if q < 0 then ['-'] else [])
      ++ natDigits ((round (|q| * 1000000)).toNat / 1000000),
    fracDigits6 ((round (|q| * 1000000)).toNat % 1000000),
    rfl, fracDigits6_length _, fracDigits6_isDigit _, ?_⟩
  intro c hc
  rw [List.mem_append] at hc
  rcases hc with hc | hc
  · split at hc
    · simp at hc
      subst hc
      decide
    · simp at hc
  · have hd := natDigits_isDigit _ c hc
    intro he
    subst he
    exact absurd hd (by decide)

/-- Witness for C9 at a concrete input: a one-sample buffer produces the
header row followed by that sample's row, and `fmt6` prints `5/4` and
`-1/2` with exactly 6 decimal places. -/
theorem c9_csv_row_shape_witness :
    CSVExporter.save [⟨1, "T", 5 / 4, 0, 0, 0, 0, 0, 0, 0, 0⟩]
      = [CSVExporter.headerRow,
         CSVExporter.sampleRow ⟨1, "T", 5 / 4, 0, 0, 0, 0, 0, 0, 0, 0⟩] ∧
    fmt6 (5 / 4) = "1.250000" ∧ fmt6 (-(1 / 2)) = "-0.500000" := by
  refine ⟨(c9_csv_row_shape [⟨1, "T", 5 / 4, 0, 0, 0, 0, 0, 0, 0, 0⟩]).1, ?_, ?_⟩
  · have hr : (round (|(5 / 4 : ℚ)| * 1000000)).toNat = 1250000 := by
      rw [show |(5 / 4 : ℚ)| = 5 / 4 by norm_num, round_eq]
      norm_num
      rfl
    simp only [fmt6, hr]
    rw [if_neg (by norm_num : ¬(5 / 4 : ℚ) < 0)]
    rw [show (1250000 : ℕ) / 1000000 = 1 by norm_num,
      show (1250000 : ℕ) % 1000000 = 250000 by norm_num]
    rw [show natDigits 1 = ['1'] by unfold natDigits; decide]
    decide
  · have hr : (round (|(-(1 / 2) : ℚ)| * 1000000)).toNat = 500000 := by
      rw [show |(-(1 / 2) : ℚ)| = 1 / 2 by norm_num, round_eq]
      norm_num
      rfl
    simp only [fmt6, hr]
    rw [if_pos (by norm_num : (-(1 / 2) : ℚ) < 0)]
    rw [show (500000 : ℕ) / 1000000 = 0 by norm_num,
      show (500000 : ℕ) % 1000000 = 500000 by norm_num]
    rw [show natDigits 0 = ['0'] by unfold natDigits; decide]
    decide

/-- Claim C1 is violated by the code: `_on_timer_tick` skips invalid frames
(`if not data.is_valid: continue`, main.py line 494) before the loop that
calls `record_frame` (line 530), so `record_frame` never sees an invalid
frame.  Running the tick handler on 10 ticks of one tracker-class device
with 3 invalid frames leaves the counters at `(7, 0)` — 7 frames recorded,
none lost — and `get_loss_rate` returns `0`, not the `3/10` the claim
requires; the 7 valid positions did reach the stats window. -/
theorem c1_invalid_frames_never_counted :
    (run_ticks MainWindowState.init
      [((0 : ℝ), [⟨"T", 1, (0, 0, 0), (0, 0, 0), true,
        TrackedDeviceClass_GenericTracker⟩]),
     ((1 : ℝ), [⟨"T", 1, (0, 0, 0), (0, 0, 0), true,
        TrackedDeviceClass_GenericTracker⟩]),
     ((2 : ℝ), [⟨"T", 1, (0, 0, 0), (0, 0, 0), false,
        TrackedDeviceClass_GenericTracker⟩]),
     ((3 : ℝ), [⟨"T", 1, (0, 0, 0), (0, 0, 0), true,
        TrackedDeviceClass_GenericTracker⟩]),
     ((4 : ℝ), [⟨"T", 1, (0, 0, 0), (0, 0, 0), true,
        TrackedDeviceClass_GenericTracker⟩]),
     ((5 : ℝ), [⟨"T", 1, (0, 0, 0), (0, 0, 0), false,
        TrackedDeviceClass_GenericTracker⟩]),
     ((6 : ℝ), [⟨"T", 1, (0, 0, 0), (0, 0, 0), true,
        TrackedDeviceClass_GenericTracker⟩]),
     ((7 : ℝ), [⟨"T", 1, (0, 0, 0), (0, 0, 0), true,
        TrackedDeviceClass_GenericTracker⟩]),
     ((8 : ℝ), [⟨"T", 1, (0, 0, 0), (0, 0, 0), false,
        TrackedDeviceClass_GenericTracker⟩]),
     ((9 : ℝ), [⟨"T", 1, (0, 0, 0), (0, 0, 0), true,
        TrackedDeviceClass_GenericTracker⟩])]).stats.frames "T" = some (7, 0) ∧
    (run_ticks MainWindowState.init
      [((0 : ℝ), [⟨"T", 1, (0, 0, 0), (0, 0, 0), true,
        TrackedDeviceClass_GenericTracker⟩]),
     ((1 : ℝ), [⟨"T", 1, (0, 0, 0), (0, 0, 0), true,
        TrackedDeviceClass_GenericTracker⟩]),
     ((2 : ℝ), [⟨"T", 1, (0, 0, 0), (0, 0, 0), false,
        TrackedDeviceClass_GenericTracker⟩]),
     ((3 : ℝ), [⟨"T", 1, (0, 0, 0), (0, 0, 0), true,
        TrackedDeviceClass_GenericTracker⟩]),
     ((4 : ℝ), [⟨"T", 1, (0, 0, 0), (0, 0, 0), true,
        TrackedDeviceClass_GenericTracker⟩]),
     ((5 : ℝ), [⟨"T", 1, (0, 0, 0), (0, 0, 0), false,
        TrackedDeviceClass_GenericTracker⟩]),
     ((6 : ℝ), [⟨"T", 1, (0, 0, 0), (0, 0, 0), true,
        TrackedDeviceClass_GenericTracker⟩]),
     ((7 : ℝ), [⟨"T", 1, (0, 0, 0), (0, 0, 0), true,
        TrackedDeviceClass_GenericTracker⟩]),
     ((8 : ℝ), [⟨"T", 1, (0, 0, 0), (0, 0, 0), false,
        TrackedDeviceClass_GenericTracker⟩]),
     ((9 : ℝ), [⟨"T", 1, (0, 0, 0), (0, 0, 0), true,
        TrackedDeviceClass_GenericTracker⟩])]).stats.get_loss_rate "T" = 0 ∧
    (run_ticks MainWindowState.init
      [((0 : ℝ), [⟨"T", 1, (0, 0, 0), (0, 0, 0), true,
        TrackedDeviceClass_GenericTracker⟩]),
     ((1 : ℝ), [⟨"T", 1, (0, 0, 0), (0, 0, 0), true,
        TrackedDeviceClass_GenericTracker⟩]),
     ((2 : ℝ), [⟨"T", 1, (0, 0, 0), (0, 0, 0), false,
        TrackedDeviceClass_GenericTracker⟩]),
     ((3 : ℝ), [⟨"T", 1, (0, 0, 0), (0, 0, 0), true,
        TrackedDeviceClass_GenericTracker⟩]),
     ((4 : ℝ), [⟨"T", 1, (0, 0, 0), (0, 0, 0), true,
        TrackedDeviceClass_GenericTracker⟩]),
     ((5 : ℝ), [⟨"T", 1, (0, 0, 0), (0, 0, 0), false,
        TrackedDeviceClass_GenericTracker⟩]),
     ((6 : ℝ), [⟨"T", 1, (0, 0, 0), (0, 0, 0), true,
        TrackedDeviceClass_GenericTracker⟩]),
     ((7 : ℝ), [⟨"T", 1, (0, 0, 0), (0, 0, 0), true,
        TrackedDeviceClass_GenericTracker⟩]),
     ((8 : ℝ), [⟨"T", 1, (0, 0, 0), (0, 0, 0), false,
        TrackedDeviceClass_GenericTracker⟩]),
     ((9 : ℝ), [⟨"T", 1, (0, 0, 0), (0, 0, 0), true,
        TrackedDeviceClass_GenericTracker⟩])]).stats.get_loss_rate "T" ≠ 3 / 10 ∧
    (run_ticks MainWindowState.init
      [((0 : ℝ), [⟨"T", 1, (0, 0, 0), (0, 0, 0), true,
        TrackedDeviceClass_GenericTracker⟩]),
     ((1 : ℝ), [⟨"T", 1, (0, 0, 0), (0, 0, 0), true,
        TrackedDeviceClass_GenericTracker⟩]),
     ((2 : ℝ), [⟨"T", 1, (0, 0, 0), (0, 0, 0), false,
        TrackedDeviceClass_GenericTracker⟩]),
     ((3 : ℝ), [⟨"T", 1, (0, 0, 0), (0, 0, 0), true,
        TrackedDeviceClass_GenericTracker⟩]),
     ((4 : ℝ), [⟨"T", 1, (0, 0, 0), (0, 0, 0), true,
        TrackedDeviceClass_GenericTracker⟩]),
     ((5 : ℝ), [⟨"T", 1, (0, 0, 0), (0, 0, 0), false,
        TrackedDeviceClass_GenericTracker⟩]),
     ((6 : ℝ), [⟨"T", 1, (0, 0, 0), (0, 0, 0), true,
        TrackedDeviceClass_GenericTracker⟩]),
     ((7 : ℝ), [⟨"T", 1, (0, 0, 0), (0, 0, 0), true,
        TrackedDeviceClass_GenericTracker⟩]),
     ((8 : ℝ), [⟨"T", 1, (0, 0, 0), (0, 0, 0), false,
        TrackedDeviceClass_GenericTracker⟩]),
     ((9 : ℝ), [⟨"T", 1, (0, 0, 0), (0, 0, 0), true,
        TrackedDeviceClass_GenericTracker⟩])]).stats.get_sample_count "T" = 7 := by
  have hfr : (run_ticks MainWindowState.init
      [((0 : ℝ), [⟨"T", 1, (0, 0, 0), (0, 0, 0), true,
        TrackedDeviceClass_GenericTracker⟩]),
     ((1 : ℝ), [⟨"T", 1, (0, 0, 0), (0, 0, 0), true,
        TrackedDeviceClass_GenericTracker⟩]),
     ((2 : ℝ), [⟨"T", 1, (0, 0, 0), (0, 0, 0), false,
        TrackedDeviceClass_GenericTracker⟩]),
     ((3 : ℝ), [⟨"T", 1, (0, 0, 0), (0, 0, 0), true,
        TrackedDeviceClass_GenericTracker⟩]),
     ((4 : ℝ), [⟨"T", 1, (0, 0, 0), (0, 0, 0), true,
        TrackedDeviceClass_GenericTracker⟩]),
     ((5 : ℝ), [⟨"T", 1, (0, 0, 0), (0, 0, 0), false,
        TrackedDeviceClass_GenericTracker⟩]),
     ((6 : ℝ), [⟨"T", 1, (0, 0, 0), (0, 0, 0), true,
        TrackedDeviceClass_GenericTracker⟩]),
     ((7 : ℝ), [⟨"T", 1, (0, 0, 0), (0, 0, 0), true,
        TrackedDeviceClass_GenericTracker⟩]),
     ((8 : ℝ), [⟨"T", 1, (0, 0, 0), (0, 0, 0), false,
        TrackedDeviceClass_GenericTracker⟩]),
     ((9 : ℝ), [⟨"T", 1, (0, 0, 0), (0, 0, 0), true,
        TrackedDeviceClass_GenericTracker⟩])]).stats.frames "T" = some (7, 0) := by
    decide
  have hrate : (run_ticks MainWindowState.init
      [((0 : ℝ), [⟨"T", 1, (0, 0, 0), (0, 0, 0), true,
        TrackedDeviceClass_GenericTracker⟩]),
     ((1 : ℝ), [⟨"T", 1, (0, 0, 0), (0, 0, 0), true,
        TrackedDeviceClass_GenericTracker⟩]),
     ((2 : ℝ), [⟨"T", 1, (0, 0, 0), (0, 0, 0), false,
        TrackedDeviceClass_GenericTracker⟩]),
     ((3 : ℝ), [⟨"T", 1, (0, 0, 0), (0, 0, 0), true,
        TrackedDeviceClass_GenericTracker⟩]),
     ((4 : ℝ), [⟨"T", 1, (0, 0, 0), (0, 0, 0), true,
        TrackedDeviceClass_GenericTracker⟩]),
     ((5 : ℝ), [⟨"T", 1, (0, 0, 0), (0, 0, 0), false,
        TrackedDeviceClass_GenericTracker⟩]),
     ((6 : ℝ), [⟨"T", 1, (0, 0, 0), (0, 0, 0), true,
        TrackedDeviceClass_GenericTracker⟩]),
     ((7 : ℝ), [⟨"T", 1, (0, 0, 0), (0, 0, 0), true,
        TrackedDeviceClass_GenericTracker⟩]),
     ((8 : ℝ), [⟨"T", 1, (0, 0, 0), (0, 0, 0), false,
        TrackedDeviceClass_GenericTracker⟩]),
     ((9 : ℝ), [⟨"T", 1, (0, 0, 0), (0, 0, 0), true,
        TrackedDeviceClass_GenericTracker⟩])]).stats.get_loss_rate "T" = 0 := by
    unfold StatsCalculator.get_loss_rate
    rw [hfr]
    norm_num
  refine ⟨hfr, hrate, ?_, ?_⟩
  · rw [hrate]
    norm_num
  · decide

/-- Witness for C8 at a concrete input: the identity transform decodes to
zero position and zero rotation when valid, and an invalid frame decodes to
zeros with `is_valid = false`. -/
theorem c8_decode_pose_witness :
    decode_pose true ⟨1, 0, 0, 0, 0, 1, 0, 0, 0, 0, 1, 0⟩
      = { position := (0, 0, 0), rotation := (0, 0, 0), is_valid := true } ∧
    decode_pose false ⟨1, 0, 0, 0, 0, 1, 0, 0, 0, 0, 1, 0⟩
      = { position := (0, 0, 0), rotation := (0, 0, 0), is_valid := false } := by
  have h := c8_decode_pose ⟨1, 0, 0, 0, 0, 1, 0, 0, 0, 0, 1, 0⟩
  refine ⟨h.1.trans ?_, h.2.1⟩
  have ha : atan2 0 1 = 0 := by
    unfold atan2
    rw [if_pos (by norm_num : (0 : ℝ) < 1)]
    norm_num [Real.arctan_zero]
  have hdeg : degrees 0 = 0 := by
    unfold degrees
    norm_num
  simp only [ha, hdeg, neg_zero, Real.arcsin_zero]
